import Mathlib

/-!
# Verification of the weft agent-mesh core

Shallow embedding of the subprocess execution and output-normalization layer
of the agent-mesh repository (src/agent_mesh): the process executor
(runners/base.py, run_subprocess), the three agent adapters
(runners/claude.py, runners/codex.py, runners/gemini.py), the dispatcher
(runners/base.py, run_agent) and the result model (types.py, AgentResult).

Python values parsed from JSON are modelled by the inductive `Json`;
Python dict/str truthiness by `Json.truthy`; Python string slicing
s[:n] by taking the first n characters of the character list. Timestamps
are modelled as integer microseconds since the epoch (datetime in UTC is
lossless at microsecond resolution).
-/

namespace AgentMesh

/-- A parsed JSON value (the result of json.loads). Numbers are modelled as
integers: no claim depends on fractional values. -/
inductive Json where
  | null
  | bool (b : Bool)
  | num (n : Int)
  | str (s : String)
  | arr (elems : List Json)
  | obj (fields : List (String × Json))

/-- First-match lookup in a JSON object field list, i.e. Python dict access
(dict keys are unique, so first match is the match). -/
def lookupJson (k : String) : List (String × Json) → Option Json
  | [] => none
  | (k₁, v) :: rest => if k₁ = k then some v else lookupJson k rest

/-- Python d.get(k) / d[k] on a parsed JSON value: key lookup when the value
is an object, none otherwise. -/
def Json.get (j : Json) (k : String) : Option Json :=
  match j with
  | .obj fields => lookupJson k fields
  | _ => none

/-- Python membership test k in d for a parsed JSON object. -/
def Json.hasKey (j : Json) (k : String) : Bool :=
  (j.get k).isSome

/-- Python truthiness of a parsed JSON value (bool(x)). -/
def Json.truthy : Json → Bool
  | .null => false
  | .bool b => b
  | .num n => n != 0
  | .str s => s.length != 0
  | .arr elems => !elems.isEmpty
  | .obj fields => !fields.isEmpty

/-- Python x == "s" for a parsed JSON value x and a string literal s. -/
def Json.isStr (j : Json) (s : String) : Bool :=
  match j with
  | .str t => t = s
  | _ => false

/-- Python s[:n] — the first n characters of s. -/
def pySlice (s : String) (n : Nat) : String :=
  String.mk (s.data.take n)

/-- Python s.strip() — drop whitespace from both ends. -/
def pyStrip (s : String) : String :=
  String.mk (((s.data.dropWhile Char.isWhitespace).reverse.dropWhile
    Char.isWhitespace).reverse)

/-- The elision marker appended by the adapters:
f-string "\n... [truncated {n} chars]". -/
def truncMarker (n : Nat) : String :=
  "\n... [truncated " ++ toString n ++ " chars]"

/-- The stdout truncation rule shared by the adapters (claude.py 108-112,
codex.py 92-96, gemini.py 60-64): cap at 2000 characters and append the
elision marker when anything was cut. -/
def truncate2000 (s : String) : String :=
  if 2000 < s.length then pySlice s 2000 ++ truncMarker (s.length - 2000) else s

/-- The outcome tuple returned by run_subprocess (base.py):
(exit_code, stdout, stderr, started_at, ended_at). Timestamps are integer
microseconds since the epoch, UTC. -/
structure ProcOutcome where
  exit_code : Int
  stdout : String
  stderr : String
  started_at : Int
  ended_at : Int
deriving Repr

/-- Token usage statistics (types.py, Usage). -/
structure Usage where
  input_tokens : Option Int := none
  output_tokens : Option Int := none
  cached_input_tokens : Option Int := none
deriving Repr

/-- Artifacts produced by an agent run (types.py, Artifacts). -/
structure Artifacts where
  files_written : List String := []
  git_diff : Option String := none
deriving Repr

/-- The closed set of agent identities (types.py, the agent Literal). -/
inductive AgentName where
  | claude
  | codex
  | gemini
  | unknown
deriving DecidableEq, Repr

/-- Normalized result from any agent run (types.py, AgentResult). mode is
the fixed Literal headless tag. -/
structure AgentResult where
  agent : AgentName
  mode : String := "headless"
  cwd : String
  ok : Bool
  exit_code : Int
  started_at : Int
  ended_at : Int
  duration_ms : Int
  stdout : String
  stderr : String
  structured : List (String × Json) := []
  artifacts : Artifacts := {}
  usage : Usage := {}

/-! ## Process executor (runners/base.py, run_subprocess) -/

/-- The launch-time faults caught by run_subprocess (base.py 38-49):
FileNotFoundError, PermissionError, NotADirectoryError, and the catch-all
Exception branch. Each carries the message text of the exception. -/
inductive LaunchFault where
  | fileNotFound (e : String)
  | permissionError (e : String)
  | notADirectory (e : String)
  | otherError (e : String)

/-- The Process Outcome synthesized by run_subprocess when the child cannot
be started (base.py 38-49): sentinel exit code, empty stdout, descriptive
stderr, both timestamps at the failure moment. cmd0 is cmd[0]. -/
def launchFailureOutcome (cmd0 cwd : String) (f : LaunchFault) (now : Int) : ProcOutcome :=
  match f with
  | .fileNotFound e =>
      ⟨127, "", "Command not found: " ++ cmd0 ++ " (" ++ e ++ ")", now, now⟩
  | .permissionError e =>
      ⟨126, "", "Permission denied: " ++ e, now, now⟩
  | .notADirectory e =>
      ⟨1, "", "Invalid working directory: " ++ cwd ++ " (" ++ e ++ ")", now, now⟩
  | .otherError e =>
      ⟨1, "", "Failed to start subprocess: " ++ e, now, now⟩

/-- One output event of the child process: a chunk appearing on stdout or on
stderr. The chunks are the (already best-effort-decoded) byte chunks that
read_stream appends to its buffer list. -/
inductive Ev where
  | out (s : String)
  | err (s : String)

/-- The two chunk buffers (stdout_chunks, stderr_chunks) after the
read_stream coroutines have consumed the given events, each appending its
chunks to its own buffer in arrival order (base.py 52-60). -/
def readStreams (evs : List Ev) : List String × List String :=
  evs.foldl
    (fun bufs e =>
      match e with
      | .out s => (bufs.1 ++ [s], bufs.2)
      | .err s => (bufs.1, bufs.2 ++ [s]))
    ([], [])

/-- The stderr annotation on timeout:
f-string "\n\n[TIMEOUT after {timeout_s}s - partial output above]". -/
def timeoutMsg (timeout_s : Nat) : String :=
  "\n\n[TIMEOUT after " ++ toString timeout_s ++ "s - partial output above]"

/-- The Process Outcome returned by run_subprocess when asyncio.wait_for
times out (base.py 70-78): the child is killed after having emitted the
first cut events of its event stream evs; the outcome joins the chunk
buffers read so far, uses exit code -1 and appends the timeout note to
stderr. -/
def timeoutOutcome (evs : List Ev) (cut : Nat) (timeout_s : Nat)
    (started ended : Int) : ProcOutcome :=
  let bufs := readStreams (evs.take cut)
  { exit_code := -1
    stdout := String.join bufs.1
    stderr := String.join bufs.2 ++ timeoutMsg timeout_s
    started_at := started
    ended_at := ended }

/-- Spec-side description of the bytes the child produced on stdout among
the given events, in order, as one string. -/
def producedOut (evs : List Ev) : String :=
  String.join (evs.filterMap fun e => match e with | .out s => some s | .err _ => none)

/-- Spec-side description of the bytes the child produced on stderr among
the given events, in order, as one string. -/
def producedErr (evs : List Ev) : String :=
  String.join (evs.filterMap fun e => match e with | .err s => some s | .out _ => none)

/-- duration_ms = int((ended_at - started_at).total_seconds() * 1000) with
microsecond timestamps: truncation toward zero, like Python int(). -/
def durationMs (started ended : Int) : Int :=
  (ended - started).tdiv 1000

/-- Option Int extracted from a JSON lookup, as pydantic would coerce a
usage counter (int | None). -/
def jsonInt (v : Option Json) : Option Int :=
  match v with
  | some (.num n) => some n
  | _ => none

/-! ## Claude adapter (runners/claude.py, run_claude 79-126) -/

/-- The (structured, usage, is_error) triple computed by run_claude from the
captured stdout; parsed is the result of json.loads(stdout), none meaning
JSONDecodeError. The structured dict keeps insertion order: result,
is_error, usage. is_error is returned as the truthiness of the
agent-reported value (run_claude tests it with "and not is_error"). -/
def claudeStructured (stdout : String) (parsed : Option Json) :
    List (String × Json) × Usage × Bool :=
  if pyStrip stdout ≠ "" then
    match parsed with
    | some data =>
        let s₁ := match data.get "result" with
          | some v => [("result", v)]
          | none => []
        let s₂ := match data.get "is_error" with
          | some v => [("is_error", v)]
          | none => []
        let isErr := match data.get "is_error" with
          | some v => v.truthy
          | none => false
        let s₃ := match data.get "usage" with
          | some u => [("usage", u)]
          | none => []
        let usage : Usage := match data.get "usage" with
          | some u =>
              { input_tokens := jsonInt (u.get "input_tokens")
                output_tokens := jsonInt (u.get "output_tokens")
                cached_input_tokens := jsonInt (u.get "cache_read_input_tokens") }
          | none => {}
        (s₁ ++ s₂ ++ s₃, usage, isErr)
    | none => ([("raw_output", Json.str (truncate2000 stdout))], {}, false)
  else ([], {}, false)

/-- run_claude after the subprocess call: normalizes a Process Outcome into
an AgentResult (claude.py 74-126). parsed models json.loads(out.stdout). -/
def run_claude (cwd : String) (out : ProcOutcome) (parsed : Option Json) : AgentResult :=
  let r := claudeStructured out.stdout parsed
  { agent := .claude
    cwd := cwd
    ok := (out.exit_code == 0) && !r.2.2
    exit_code := out.exit_code
    started_at := out.started_at
    ended_at := out.ended_at
    duration_ms := durationMs out.started_at out.ended_at
    stdout := truncate2000 out.stdout
    stderr := out.stderr
    structured := r.1
    usage := r.2.1 }

/-! ## Codex adapter (runners/codex.py, run_codex 62-122) -/

/-- One line of codex JSON-Lines stdout, as seen by the parse loop: either
json.loads succeeded with an event, or raised JSONDecodeError. -/
inductive LineParse where
  | ok (event : Json)
  | bad (line : String)

/-- The loop state of run_codex over its JSONL lines. -/
structure CodexScan where
  response_text : Option Json
  event_count : Nat

/-- The completed-agent-message test run_codex applies to one parsed line
(codex.py 79-84): event.get type equals item.completed, item = event.get
item (default empty dict), item.get type equals agent_message and text in
item; when it all holds the result is the text (which the guard makes
present), otherwise none. -/
def lineText (l : LineParse) : Option Json :=
  match l with
  | .bad _ => none
  | .ok event =>
      let typeMatches := match event.get "type" with
        | some t => t.isStr "item.completed"
        | none => false
      if typeMatches then
        let item := (event.get "item").getD (Json.obj [])
        let itemMatches := match item.get "type" with
          | some t => t.isStr "agent_message"
          | none => false
        if itemMatches && item.hasKey "text" then item.get "text" else none
      else none

/-- One iteration of the run_codex parse loop (codex.py 73-86): a malformed
line is skipped; a well-formed line bumps event_count and, when it is a
completed agent message (the lineText shape above), replaces response_text
by its text, keeping the previous value otherwise. -/
def codexStep (acc : CodexScan) (l : LineParse) : CodexScan :=
  match l with
  | .bad _ => acc
  | .ok _ =>
      { event_count := acc.event_count + 1
        response_text := match lineText l with
          | some x => some x
          | none => acc.response_text }

/-- The full scan of the codex parse loop. -/
def codexScan (lines : List LineParse) : CodexScan :=
  lines.foldl codexStep { response_text := none, event_count := 0 }

/-- The structured payload built by run_codex (codex.py 72-90): response is
kept only when response_text is truthy (Python if response_text), then
event_count; nothing at all when stdout strips to empty. -/
def codexStructured (stdout : String) (lines : List LineParse) : List (String × Json) :=
  if pyStrip stdout ≠ "" then
    let scan := codexScan lines
    (match scan.response_text with
     | some t => if t.truthy then [("response", t)] else []
     | none => []) ++ [("event_count", Json.num scan.event_count)]
  else []

/-- run_codex after the subprocess call (codex.py 62-122) with the default
json_events = true. lines models the json.loads outcome of each stripped,
nonempty line of stdout. -/
def run_codex (cwd : String) (out : ProcOutcome) (lines : List LineParse) : AgentResult :=
  { agent := .codex
    cwd := cwd
    ok := out.exit_code == 0
    exit_code := out.exit_code
    started_at := out.started_at
    ended_at := out.ended_at
    duration_ms := durationMs out.started_at out.ended_at
    stdout := truncate2000 out.stdout
    stderr := out.stderr
    structured := codexStructured out.stdout lines }

/-! ## Gemini adapter (runners/gemini.py, run_gemini 9-78) -/

/-- The (structured, usage, has_error) triple computed by run_gemini
(gemini.py 31-58): stdout is inspected only when exit_code == 0 and stdout
strips nonempty; has_error is set whenever the error key is present. On
JSONDecodeError the trimmed stdout is kept (truncated) as the response. -/
def geminiStructured (exit_code : Int) (stdout : String) (parsed : Option Json) :
    List (String × Json) × Usage × Bool :=
  if exit_code = 0 ∧ pyStrip stdout ≠ "" then
    match parsed with
    | some data =>
        let s₁ := match data.get "response" with
          | some v => [("response", v)]
          | none => []
        let s₂ := match data.get "error" with
          | some v => [("error", v)]
          | none => []
        let hasErr := (data.get "error").isSome
        let s₃ := match data.get "stats" with
          | some st => [("stats", st)]
          | none => []
        let usage : Usage := match data.get "stats" with
          | some st =>
              { input_tokens := jsonInt (st.get "inputTokens")
                output_tokens := jsonInt (st.get "outputTokens") }
          | none => {}
        (s₁ ++ s₂ ++ s₃, usage, hasErr)
    | none => ([("response", Json.str (truncate2000 (pyStrip stdout)))], {}, false)
  else ([], {}, false)

/-- run_gemini after the subprocess call (gemini.py 26-78). parsed models
json.loads(out.stdout). -/
def run_gemini (cwd : String) (out : ProcOutcome) (parsed : Option Json) : AgentResult :=
  let r := geminiStructured out.exit_code out.stdout parsed
  { agent := .gemini
    cwd := cwd
    ok := (out.exit_code == 0) && !r.2.2
    exit_code := out.exit_code
    started_at := out.started_at
    ended_at := out.ended_at
    duration_ms := durationMs out.started_at out.ended_at
    stdout := truncate2000 out.stdout
    stderr := out.stderr
    structured := r.1
    usage := r.2.1 }

/-! ## Dispatcher (runners/base.py, run_agent 81-121) -/

/-- The synthesized failure result for an unrecognized agent name
(base.py 108-121). -/
def unknownAgentResult (agent cwd : String) (now : Int) : AgentResult :=
  { agent := .unknown
    cwd := cwd
    ok := false
    exit_code := 1
    started_at := now
    ended_at := now
    duration_ms := 0
    stdout := ""
    stderr := "Unknown agent: " ++ agent ++ ". Must be claude, codex, or gemini." }

/-- run_agent dispatch (base.py 92-121): exact string match on the agent
name; the three known names delegate to their adapters (whose results are
passed in, the adapters being modelled separately); anything else yields
the synthesized unknown-agent failure. -/
def run_agent (agent cwd : String) (now : Int)
    (claudeResult codexResult geminiResult : AgentResult) : AgentResult :=
  if agent = "claude" then claudeResult
  else if agent = "codex" then codexResult
  else if agent = "gemini" then geminiResult
  else unknownAgentResult agent cwd now

/-! ## Environment merge (runners/base.py 21-25) -/

/-- A Python dict of environment variables, as an insertion-ordered
association list with unique keys. -/
abbrev Env := List (String × String)

/-- Python dict lookup (first — hence only — matching key). -/
def envLookup (k : String) : Env → Option String
  | [] => none
  | (k₁, v) :: rest => if k₁ = k then some v else envLookup k rest

/-- Python d[k] = v on a dict: replace the value in place if the key exists,
append otherwise. -/
def setKey (d : Env) (k v : String) : Env :=
  if d.any (fun p => p.1 == k) then
    d.map (fun p => if p.1 = k then (k, v) else p)
  else d ++ [(k, v)]

/-- Python d.update(ov): set each override pair in order. -/
def dictUpdate (d ov : Env) : Env :=
  ov.foldl (fun acc p => setKey acc p.1 p.2) d

/-- The environment run_subprocess passes to the child (base.py 21-25):
full_env = os.environ.copy(); if env: full_env.update(env). base is the
os.environ snapshot; the copy makes the merge pure. -/
def mergedEnv (base : Env) (env : Option Env) : Env :=
  match env with
  | some ov => dictUpdate base ov
  | none => base

/-! ## JSON serialization of AgentResult (types.py, AgentResult as a
pydantic BaseModel)

Modelled from the spec: model_dump_json and model_validate are pydantic
behavior, not code under src/. The spec requires deterministic JSON with
stable field names and ISO-8601 timestamps. A UTC datetime and its ISO-8601
rendering with microseconds determine each other exactly, so the timestamp
is serialized here as its microsecond count. -/

def AgentName.toStr : AgentName → String
  | .claude => "claude"
  | .codex => "codex"
  | .gemini => "gemini"
  | .unknown => "unknown"

def AgentName.ofStr (s : String) : Option AgentName :=
  if s = "claude" then some .claude
  else if s = "codex" then some .codex
  else if s = "gemini" then some .gemini
  else if s = "unknown" then some .unknown
  else none

/-- int | None field, serialized. -/
def encOptNum : Option Int → Json
  | none => .null
  | some n => .num n

/-- int | None field, parsed back. -/
def decOptNum : Json → Option (Option Int)
  | .null => some none
  | .num n => some (some n)
  | _ => none

/-- str | None field, serialized. -/
def encOptStr : Option String → Json
  | none => .null
  | some s => .str s

/-- str | None field, parsed back. -/
def decOptStr : Json → Option (Option String)
  | .null => some none
  | .str s => some (some s)
  | _ => none

/-- list[str] field, parsed back. -/
def decStrList : List Json → Option (List String)
  | [] => some []
  | .str s :: rest => (decStrList rest).map (s :: ·)
  | _ => none

def Usage.toJson (u : Usage) : Json :=
  .obj [("input_tokens", encOptNum u.input_tokens),
        ("output_tokens", encOptNum u.output_tokens),
        ("cached_input_tokens", encOptNum u.cached_input_tokens)]

def Usage.fromJson : Json → Option Usage
  | .obj fields => do
      let it ← (lookupJson "input_tokens" fields).bind decOptNum
      let ot ← (lookupJson "output_tokens" fields).bind decOptNum
      let ct ← (lookupJson "cached_input_tokens" fields).bind decOptNum
      some { input_tokens := it, output_tokens := ot, cached_input_tokens := ct }
  | _ => none

def Artifacts.toJson (a : Artifacts) : Json :=
  .obj [("files_written", .arr (a.files_written.map .str)),
        ("git_diff", encOptStr a.git_diff)]

def Artifacts.fromJson : Json → Option Artifacts
  | .obj fields => do
      let fw ← match lookupJson "files_written" fields with
        | some (.arr xs) => decStrList xs
        | _ => none
      let gd ← (lookupJson "git_diff" fields).bind decOptStr
      some { files_written := fw, git_diff := gd }
  | _ => none

/-- model_dump_json: the AgentResult fields, in declaration order, with
their pydantic field names. -/
def AgentResult.toJson (r : AgentResult) : Json :=
  .obj [("agent", .str r.agent.toStr),
        ("mode", .str r.mode),
        ("cwd", .str r.cwd),
        ("ok", .bool r.ok),
        ("exit_code", .num r.exit_code),
        ("started_at", .num r.started_at),
        ("ended_at", .num r.ended_at),
        ("duration_ms", .num r.duration_ms),
        ("stdout", .str r.stdout),
        ("stderr", .str r.stderr),
        ("structured", .obj r.structured),
        ("artifacts", r.artifacts.toJson),
        ("usage", r.usage.toJson)]

/-- Field access helpers for parsing the serialized form back. -/
def getStrField (fields : List (String × Json)) (k : String) : Option String :=
  match lookupJson k fields with
  | some (.str s) => some s
  | _ => none

def getNumField (fields : List (String × Json)) (k : String) : Option Int :=
  match lookupJson k fields with
  | some (.num n) => some n
  | _ => none

def getBoolField (fields : List (String × Json)) (k : String) : Option Bool :=
  match lookupJson k fields with
  | some (.bool b) => some b
  | _ => none

def getObjField (fields : List (String × Json)) (k : String) :
    Option (List (String × Json)) :=
  match lookupJson k fields with
  | some (.obj o) => some o
  | _ => none

/-- model_validate after json.loads: rebuild an AgentResult from its
serialized JSON, validating every field. -/
def AgentResult.fromJson : Json → Option AgentResult
  | .obj fields => do
      let agent ← (getStrField fields "agent").bind AgentName.ofStr
      let mode ← getStrField fields "mode"
      let cwd ← getStrField fields "cwd"
      let ok ← getBoolField fields "ok"
      let exit_code ← getNumField fields "exit_code"
      let started_at ← getNumField fields "started_at"
      let ended_at ← getNumField fields "ended_at"
      let duration_ms ← getNumField fields "duration_ms"
      let stdout ← getStrField fields "stdout"
      let stderr ← getStrField fields "stderr"
      let structured ← getObjField fields "structured"
      let artifacts ← (lookupJson "artifacts" fields).bind Artifacts.fromJson
      let usage ← (lookupJson "usage" fields).bind Usage.fromJson
      some { agent := agent, mode := mode, cwd := cwd, ok := ok,
             exit_code := exit_code, started_at := started_at,
             ended_at := ended_at, duration_ms := duration_ms,
             stdout := stdout, stderr := stderr, structured := structured,
             artifacts := artifacts, usage := usage }
  | _ => none

/-- Millisecond view of a microsecond timestamp (timestamps compared at
millisecond precision). -/
def millisOf (t : Int) : Int := t.tdiv 1000

/-! ## Spec-side payload observations -/

/-- The payload carries a truthy value at key k. -/
def payloadFlag (structured : List (String × Json)) (k : String) : Bool :=
  match lookupJson k structured with
  | some v => v.truthy
  | none => false

/-- The payload carries key k at all. -/
def payloadHasKey (structured : List (String × Json)) (k : String) : Bool :=
  (lookupJson k structured).isSome

/-- Spec-side: the text of the last well-formed completed-agent-message
event among the parsed lines (matching the shape run_codex scans for). -/
def lastAgentMessage (lines : List LineParse) : Option Json :=
  (lines.filterMap lineText).getLast?

/-- Spec-side: the number of well-formed JSON lines (events). -/
def wellFormedCount (lines : List LineParse) : Nat :=
  (lines.filter fun l => match l with | .ok _ => true | .bad _ => false).length

/-! ## Shared lemmas -/

theorem pySlice_length (s : String) (n : Nat) :
    (pySlice s n).length = min n s.length := by
  show (s.data.take n).length = min n s.data.length
  simp

theorem truncate2000_length_of_gt (s : String) (h : 2000 < s.length) :
    (truncate2000 s).length = 2000 + (truncMarker (s.length - 2000)).length := by
  unfold truncate2000
  rw [if_pos h, String.length_append, pySlice_length]
  omega

theorem readStreams_foldl (evs : List Ev) (a b : List String) :
    evs.foldl
      (fun bufs e =>
        match e with
        | .out s => (bufs.1 ++ [s], bufs.2)
        | .err s => (bufs.1, bufs.2 ++ [s]))
      (a, b)
    = (a ++ evs.filterMap (fun e => match e with | .out s => some s | .err _ => none),
       b ++ evs.filterMap (fun e => match e with | .err s => some s | .out _ => none)) := by
  induction evs generalizing a b with
  | nil => simp
  | cons e evs ih =>
    cases e with
    | out s => simp [List.filterMap_cons, ih]
    | err s => simp [List.filterMap_cons, ih]

/-! ## Claim theorems -/

/-- C2: when the wall-clock timeout elapses before the child exits, the
executor returns exit code -1, the returned stdout and stderr are exactly
the concatenation, in order and without loss or duplication, of the chunks
the child had produced on each stream up to termination (the first cut
events of its stream), and stderr carries the human-readable timeout
suffix. -/
theorem timeout_partial_output (evs : List Ev) (cut timeout_s : Nat)
    (started ended : Int) :
    (timeoutOutcome evs cut timeout_s started ended).exit_code = -1 ∧
    (timeoutOutcome evs cut timeout_s started ended).stdout
      = producedOut (evs.take cut) ∧
    (timeoutOutcome evs cut timeout_s started ended).stderr
      = producedErr (evs.take cut) ++ timeoutMsg timeout_s := by
  refine ⟨rfl, ?_, ?_⟩ <;>
    simp [timeoutOutcome, producedOut, producedErr, readStreams, readStreams_foldl]

/-- C3: a missing executable yields, through every adapter, a result with
success = false and exit code 127; more generally every launch-time fault
synthesizes a populated Process Outcome with sentinel exit code 127, 126 or
1 and a nonempty descriptive stderr. No exception is modelled:
launchFailureOutcome and the adapters are total functions. -/
theorem launch_fault_sentinels (cmd0 cwd e : String) (now : Int)
    (parsed : Option Json) (lines : List LineParse) :
    (∀ f : LaunchFault,
      ((launchFailureOutcome cmd0 cwd f now).exit_code = 127 ∨
       (launchFailureOutcome cmd0 cwd f now).exit_code = 126 ∨
       (launchFailureOutcome cmd0 cwd f now).exit_code = 1) ∧
      (launchFailureOutcome cmd0 cwd f now).stderr ≠ "") ∧
    (run_claude cwd (launchFailureOutcome cmd0 cwd (.fileNotFound e) now) parsed).ok
      = false ∧
    (run_claude cwd (launchFailureOutcome cmd0 cwd (.fileNotFound e) now) parsed).exit_code
      = 127 ∧
    (run_codex cwd (launchFailureOutcome cmd0 cwd (.fileNotFound e) now) lines).ok
      = false ∧
    (run_codex cwd (launchFailureOutcome cmd0 cwd (.fileNotFound e) now) lines).exit_code
      = 127 ∧
    (run_gemini cwd (launchFailureOutcome cmd0 cwd (.fileNotFound e) now) parsed).ok
      = false ∧
    (run_gemini cwd (launchFailureOutcome cmd0 cwd (.fileNotFound e) now) parsed).exit_code
      = 127 := by
  refine ⟨?_, rfl, rfl, rfl, rfl, rfl, rfl⟩
  intro f
  cases f with
  | fileNotFound e =>
    refine ⟨Or.inl rfl, ?_⟩
    intro hs
    have hl := congrArg String.length hs
    simp only [String.length_append, launchFailureOutcome] at hl
    have : 0 < "Command not found: ".length := by decide
    have : "".length = 0 := rfl
    omega
  | permissionError e =>
    refine ⟨Or.inr (Or.inl rfl), ?_⟩
    intro hs
    have hl := congrArg String.length hs
    simp only [String.length_append, launchFailureOutcome] at hl
    have : 0 < "Permission denied: ".length := by decide
    have : "".length = 0 := rfl
    omega
  | notADirectory e =>
    refine ⟨Or.inr (Or.inr rfl), ?_⟩
    intro hs
    have hl := congrArg String.length hs
    simp only [String.length_append, launchFailureOutcome] at hl
    have : 0 < "Invalid working directory: ".length := by decide
    have : "".length = 0 := rfl
    omega
  | otherError e =>
    refine ⟨Or.inr (Or.inr rfl), ?_⟩
    intro hs
    have hl := congrArg String.length hs
    simp only [String.length_append, launchFailureOutcome] at hl
    have : 0 < "Failed to start subprocess: ".length := by decide
    have : "".length = 0 := rfl
    omega

/-- C4 counterexample: the truncation rule is not idempotent. On a string
of 2001 characters the first application appends a 24-character marker
(truncated 1 chars); the second application then cuts again and appends a
25-character marker (truncated 24 chars), giving a different string. -/
theorem truncate_not_idempotent :
    truncate2000 (truncate2000 (String.mk (List.replicate 2001 'a')))
      ≠ truncate2000 (String.mk (List.replicate 2001 'a')) := by
  have h1 : (String.mk (List.replicate 2001 'a')).length = 2001 := by
    show (List.replicate 2001 'a').length = 2001
    exact List.length_replicate 2001 'a'
  have hm1 : (truncMarker 1).length = 24 := by decide
  have hm24 : (truncMarker 24).length = 25 := by decide
  have hlen1 : (truncate2000 (String.mk (List.replicate 2001 'a'))).length = 2024 := by
    rw [truncate2000_length_of_gt _ (by omega), h1]
    norm_num [hm1]
  have hlen2 :
      (truncate2000 (truncate2000 (String.mk (List.replicate 2001 'a')))).length = 2025 := by
    rw [truncate2000_length_of_gt _ (by omega), hlen1]
    norm_num [hm24]
  intro h
  have := congrArg String.length h
  rw [hlen2, hlen1] at this
  exact absurd this (by decide)

/-- C4 amended: the truncation rule is idempotent on every string within
the 2000-character cap (where it is the identity); for longer strings a
second application changes the elision marker, so idempotence fails in
general (see the counterexample). -/
theorem truncate_idempotent_within_cap (s : String) (h : s.length ≤ 2000) :
    truncate2000 (truncate2000 s) = truncate2000 s := by
  have hs : truncate2000 s = s := by
    unfold truncate2000
    rw [if_neg (by omega)]
  rw [hs, hs]

theorem truncate_idempotent_within_cap_witness :
    ("abc" : String).length ≤ 2000 ∧
    truncate2000 (truncate2000 "abc") = truncate2000 "abc" :=
  ⟨by decide, truncate_idempotent_within_cap "abc" (by decide)⟩

/-- C5 counterexample: stderr is not subject to the truncation policy. A
claude result built from an outcome with a 3000-character stderr keeps all
3000 characters: it differs from the truncated form and exceeds the
2000-character cap plus marker. -/
theorem stderr_not_truncated :
    (run_claude "/w" ⟨0, "", String.mk (List.replicate 3000 'e'), 0, 0⟩ none).stderr
      ≠ truncate2000 (String.mk (List.replicate 3000 'e')) ∧
    2000 + (truncMarker ((String.mk (List.replicate 3000 'e')).length - 2000)).length
      < (run_claude "/w" ⟨0, "", String.mk (List.replicate 3000 'e'), 0, 0⟩ none).stderr.length := by
  have hs : (run_claude "/w" ⟨0, "", String.mk (List.replicate 3000 'e'), 0, 0⟩ none).stderr
      = String.mk (List.replicate 3000 'e') := rfl
  have h1 : (String.mk (List.replicate 3000 'e')).length = 3000 := by
    show (List.replicate 3000 'e').length = 3000
    exact List.length_replicate 3000 'e'
  have hm : (truncMarker 1000).length = 27 := by decide
  constructor
  · rw [hs]
    intro h
    have hl := congrArg String.length h
    rw [truncate2000_length_of_gt _ (by omega), h1] at hl
    norm_num [hm] at hl
  · rw [hs, h1]
    norm_num [hm]

/-- C5 amended: in every Agent Result returned by an adapter, the captured
stdout is subject to the truncation policy (it equals the truncation of the
raw stdout), while stderr is passed through unmodified. -/
theorem adapter_truncation_policy (cwd : String) (out : ProcOutcome)
    (parsed : Option Json) (lines : List LineParse) :
    (run_claude cwd out parsed).stdout = truncate2000 out.stdout ∧
    (run_claude cwd out parsed).stderr = out.stderr ∧
    (run_codex cwd out lines).stdout = truncate2000 out.stdout ∧
    (run_codex cwd out lines).stderr = out.stderr ∧
    (run_gemini cwd out parsed).stdout = truncate2000 out.stdout ∧
    (run_gemini cwd out parsed).stderr = out.stderr :=
  ⟨rfl, rfl, rfl, rfl, rfl, rfl⟩

/-- C7: dispatching any agent name outside the closed set claude, codex,
gemini returns the synthesized failed Agent Result: identity is the
unknown sentinel, success = false, exit code = 1, and stderr is the
descriptive unknown-agent message (which contains the words Unknown
agent); nothing is raised, run_agent being a total function. -/
theorem dispatch_unknown (agent cwd : String) (now : Int)
    (cr xr gr : AgentResult)
    (h : ¬(agent = "claude" ∨ agent = "codex" ∨ agent = "gemini")) :
    (run_agent agent cwd now cr xr gr).agent = .unknown ∧
    (run_agent agent cwd now cr xr gr).ok = false ∧
    (run_agent agent cwd now cr xr gr).exit_code = 1 ∧
    (run_agent agent cwd now cr xr gr).stderr
      = "Unknown agent: " ++ agent ++ ". Must be claude, codex, or gemini." := by
  have h1 : agent ≠ "claude" := fun hc => h (Or.inl hc)
  have h2 : agent ≠ "codex" := fun hc => h (Or.inr (Or.inl hc))
  have h3 : agent ≠ "gemini" := fun hc => h (Or.inr (Or.inr hc))
  unfold run_agent
  rw [if_neg h1, if_neg h2, if_neg h3]
  exact ⟨rfl, rfl, rfl, rfl⟩

theorem dispatch_unknown_witness :
    ¬(("nonexistent" : String) = "claude" ∨ ("nonexistent" : String) = "codex" ∨
        ("nonexistent" : String) = "gemini") ∧
    ((run_agent "nonexistent" "/w" 0 (unknownAgentResult "" "" 0)
        (unknownAgentResult "" "" 0) (unknownAgentResult "" "" 0)).agent = .unknown ∧
     (run_agent "nonexistent" "/w" 0 (unknownAgentResult "" "" 0)
        (unknownAgentResult "" "" 0) (unknownAgentResult "" "" 0)).ok = false ∧
     (run_agent "nonexistent" "/w" 0 (unknownAgentResult "" "" 0)
        (unknownAgentResult "" "" 0) (unknownAgentResult "" "" 0)).exit_code = 1 ∧
     (run_agent "nonexistent" "/w" 0 (unknownAgentResult "" "" 0)
        (unknownAgentResult "" "" 0) (unknownAgentResult "" "" 0)).stderr
       = "Unknown agent: " ++ "nonexistent" ++ ". Must be claude, codex, or gemini.") :=
  ⟨by decide,
   dispatch_unknown "nonexistent" "/w" 0 (unknownAgentResult "" "" 0)
     (unknownAgentResult "" "" 0) (unknownAgentResult "" "" 0) (by decide)⟩

/-- C10: the gemini adapter inspects stdout only on exit code 0. For every
process outcome with nonzero exit code the structured payload is empty and
the usage counters are untouched, whatever stdout or its parse hold. -/
theorem gemini_no_parse_on_failure (cwd : String) (out : ProcOutcome)
    (parsed : Option Json) (h : out.exit_code ≠ 0) :
    (run_gemini cwd out parsed).structured = [] ∧
    (run_gemini cwd out parsed).usage = {} ∧
    (run_gemini cwd out parsed).ok = false := by
  have hg : geminiStructured out.exit_code out.stdout parsed = ([], {}, false) := by
    unfold geminiStructured
    rw [if_neg]
    intro hc
    exact h hc.1
  refine ⟨?_, ?_, ?_⟩ <;>
    simp [run_gemini, hg, h]

theorem gemini_no_parse_on_failure_witness :
    ((⟨2, "ignored", "", 0, 0⟩ : ProcOutcome).exit_code ≠ 0) ∧
    ((run_gemini "/w" ⟨2, "ignored", "", 0, 0⟩
        (some (Json.obj [("response", .str "hi"), ("error", .bool true)]))).structured = [] ∧
     (run_gemini "/w" ⟨2, "ignored", "", 0, 0⟩
        (some (Json.obj [("response", .str "hi"), ("error", .bool true)]))).usage = {} ∧
     (run_gemini "/w" ⟨2, "ignored", "", 0, 0⟩
        (some (Json.obj [("response", .str "hi"), ("error", .bool true)]))).ok = false) :=
  ⟨by decide,
   gemini_no_parse_on_failure "/w" ⟨2, "ignored", "", 0, 0⟩
     (some (Json.obj [("response", .str "hi"), ("error", .bool true)])) (by decide)⟩

theorem claude_payload_flag (stdout : String) (parsed : Option Json) :
    payloadFlag (claudeStructured stdout parsed).1 "is_error"
      = (claudeStructured stdout parsed).2.2 := by
  unfold claudeStructured
  split
  · cases parsed with
    | none => simp +decide [payloadFlag, lookupJson]
    | some data =>
      cases h₁ : data.get "result" <;> cases h₂ : data.get "is_error" <;>
        cases h₃ : data.get "usage" <;>
          simp +decide [payloadFlag, lookupJson, h₁, h₂, h₃]
  · simp [payloadFlag, lookupJson]

theorem gemini_payload_key (exit_code : Int) (stdout : String) (parsed : Option Json) :
    payloadHasKey (geminiStructured exit_code stdout parsed).1 "error"
      = (geminiStructured exit_code stdout parsed).2.2 := by
  unfold geminiStructured
  split
  · cases parsed with
    | none => simp +decide [payloadHasKey, lookupJson]
    | some data =>
      cases h₁ : data.get "response" <;> cases h₂ : data.get "error" <;>
        cases h₃ : data.get "stats" <;>
          simp +decide [payloadHasKey, lookupJson, h₁, h₂, h₃]
  · simp [payloadHasKey, lookupJson]

theorem codex_payload_no_error (stdout : String) (lines : List LineParse) :
    payloadHasKey (codexStructured stdout lines) "error" = false ∧
    payloadFlag (codexStructured stdout lines) "is_error" = false := by
  unfold codexStructured
  split
  · cases hr : (codexScan lines).response_text with
    | none => simp +decide [payloadHasKey, payloadFlag, lookupJson, hr]
    | some t =>
      by_cases ht : t.truthy <;>
        simp +decide [payloadHasKey, payloadFlag, lookupJson, hr, ht]
  · simp [payloadHasKey, payloadFlag, lookupJson]

/-- C1: for each adapter, the success flag equals exit code zero AND no
agent-reported error in the parsed payload: for claude, no truthy is_error
field (Python tests the value's truthiness); for gemini, no error field at
all (run_gemini flags any present error key); for codex, whose parser
extracts no error field, the payload never carries one and success is
exactly exit code zero. In particular exit code 0 with a reported error
gives success = false. -/
theorem adapters_success_flag (cwd : String) (out : ProcOutcome)
    (parsed : Option Json) (lines : List LineParse) :
    (run_claude cwd out parsed).ok
      = ((out.exit_code == 0) &&
          !payloadFlag (run_claude cwd out parsed).structured "is_error") ∧
    (run_codex cwd out lines).ok
      = ((out.exit_code == 0) &&
          !payloadHasKey (run_codex cwd out lines).structured "error") ∧
    payloadHasKey (run_codex cwd out lines).structured "error" = false ∧
    payloadFlag (run_codex cwd out lines).structured "is_error" = false ∧
    (run_gemini cwd out parsed).ok
      = ((out.exit_code == 0) &&
          !payloadHasKey (run_gemini cwd out parsed).structured "error") := by
  have hc := claude_payload_flag out.stdout parsed
  have hx := codex_payload_no_error out.stdout lines
  have hg := gemini_payload_key out.exit_code out.stdout parsed
  refine ⟨?_, ?_, hx.1, hx.2, ?_⟩
  · have e₁ : (run_claude cwd out parsed).ok
        = ((out.exit_code == 0) && !(claudeStructured out.stdout parsed).2.2) := rfl
    have e₂ : (run_claude cwd out parsed).structured
        = (claudeStructured out.stdout parsed).1 := rfl
    rw [e₁, e₂, hc]
  · have e₁ : (run_codex cwd out lines).ok = (out.exit_code == 0) := rfl
    have e₂ : (run_codex cwd out lines).structured
        = codexStructured out.stdout lines := rfl
    rw [e₁, e₂, hx.1]
    simp
  · have e₁ : (run_gemini cwd out parsed).ok
        = ((out.exit_code == 0) && !(geminiStructured out.exit_code out.stdout parsed).2.2) := rfl
    have e₂ : (run_gemini cwd out parsed).structured
        = (geminiStructured out.exit_code out.stdout parsed).1 := rfl
    rw [e₁, e₂, hg]

theorem lastOfCons {α : Type} (y : α) (t : List α) :
    (y :: t).getLast? = match t.getLast? with
      | some z => some z
      | none => some y := by
  induction t generalizing y with
  | nil => rfl
  | cons z t ih =>
    rw [List.getLast?_cons_cons, ih z]
    cases t.getLast?
    · rfl
    · rfl

theorem codexScan_go (lines : List LineParse) (acc : CodexScan) :
    (lines.foldl codexStep acc).response_text
      = (match (lines.filterMap lineText).getLast? with
         | some t => some t
         | none => acc.response_text) ∧
    (lines.foldl codexStep acc).event_count
      = acc.event_count + wellFormedCount lines := by
  induction lines generalizing acc with
  | nil => exact ⟨rfl, by simp [wellFormedCount]⟩
  | cons l rest ih =>
    obtain ⟨ihr, ihc⟩ := ih (codexStep acc l)
    constructor
    · rw [List.foldl_cons, ihr, List.filterMap_cons]
      cases l with
      | bad s => rfl
      | ok event =>
        cases hx : lineText (.ok event) with
        | none => simp [codexStep, hx]
        | some x =>
          rw [lastOfCons]
          cases (rest.filterMap lineText).getLast? <;> simp [codexStep, hx]
    · rw [List.foldl_cons, ihc]
      cases l <;> simp [codexStep, wellFormedCount, List.filter_cons] <;> omega

theorem codexScan_response (lines : List LineParse) :
    (codexScan lines).response_text = lastAgentMessage lines := by
  rw [show codexScan lines
      = lines.foldl codexStep { response_text := none, event_count := 0 } from rfl,
    (codexScan_go lines _).1]
  unfold lastAgentMessage
  cases (lines.filterMap lineText).getLast? <;> rfl

theorem codexScan_count (lines : List LineParse) :
    (codexScan lines).event_count = wellFormedCount lines := by
  have h := (codexScan_go lines { response_text := none, event_count := 0 }).2
  simpa using h

theorem codexScan_skip_bad (lines : List LineParse) :
    codexScan (lines.filter fun l => match l with | .ok _ => true | .bad _ => false)
      = codexScan lines := by
  unfold codexScan
  generalize ({ response_text := none, event_count := 0 } : CodexScan) = acc
  induction lines generalizing acc with
  | nil => rfl
  | cons l rest ih =>
    cases l with
    | ok e => simp only [List.filter_cons, List.foldl_cons]; exact ih _
    | bad s =>
      simp only [List.filter_cons, List.foldl_cons]
      show (rest.filter _).foldl codexStep acc = rest.foldl codexStep acc
      exact ih acc

/-- C6 counterexample: a single well-formed completed-agent-message event
whose text is the empty string. The last matching event exists and its
text is the empty string, yet run_codex stores no response key at all:
Python if response_text drops falsy values, so the final answer is not
stored as the claim states. -/
theorem codex_empty_text_dropped :
    lastAgentMessage [LineParse.ok (Json.obj [("type", Json.str "item.completed"),
        ("item", Json.obj [("type", Json.str "agent_message"), ("text", Json.str "")])])]
      = some (Json.str "") ∧
    lookupJson "response"
      (run_codex "/w" ⟨0, "x", "", 0, 0⟩
        [LineParse.ok (Json.obj [("type", Json.str "item.completed"),
          ("item", Json.obj [("type", Json.str "agent_message"), ("text", Json.str "")])])]).structured
      = none :=
  ⟨rfl, rfl⟩

/-- C6 amended: on JSON-Lines stdout (stripping nonempty), run_codex stores
under response the text of the last well-formed completed-agent-message
event whenever that text is truthy (nonempty), and omits the key when no
matching event exists or its text is falsy; it records the count of
well-formed JSON lines under event_count; and lines that fail to parse are
skipped without failing the call: removing them changes nothing. -/
theorem codex_jsonl_extraction (cwd : String) (out : ProcOutcome)
    (lines : List LineParse) (h : pyStrip out.stdout ≠ "") :
    lookupJson "response" (run_codex cwd out lines).structured
      = (match lastAgentMessage lines with
         | some t => if t.truthy then some t else none
         | none => none) ∧
    lookupJson "event_count" (run_codex cwd out lines).structured
      = some (Json.num (wellFormedCount lines)) ∧
    (run_codex cwd out lines).structured
      = (run_codex cwd out
          (lines.filter fun l => match l with | .ok _ => true | .bad _ => false)).structured := by
  have hs : (run_codex cwd out lines).structured = codexStructured out.stdout lines := rfl
  refine ⟨?_, ?_, ?_⟩
  · rw [hs]
    simp only [codexStructured, h, if_true]
    rw [codexScan_response]
    cases hl : lastAgentMessage lines with
    | none => simp +decide [lookupJson, h]
    | some t =>
      by_cases ht : t.truthy <;> simp +decide [lookupJson, ht, h]
  · rw [hs]
    simp only [codexStructured, h, if_true]
    rw [codexScan_response, codexScan_count]
    cases hl : lastAgentMessage lines with
    | none => simp +decide [lookupJson, h]
    | some t =>
      by_cases ht : t.truthy <;> simp +decide [lookupJson, ht, h]
  · rw [hs, show (run_codex cwd out
        (lines.filter fun l => match l with | .ok _ => true | .bad _ => false)).structured
      = codexStructured out.stdout
          (lines.filter fun l => match l with | .ok _ => true | .bad _ => false) from rfl]
    simp only [codexStructured, h, if_true]
    rw [codexScan_skip_bad]

theorem codex_jsonl_extraction_witness :
    pyStrip (ProcOutcome.mk 0 "x" "" 0 0).stdout ≠ "" ∧
    (lookupJson "response"
        (run_codex "/w" (ProcOutcome.mk 0 "x" "" 0 0)
          [LineParse.ok (Json.obj [("type", Json.str "item.completed"),
            ("item", Json.obj [("type", Json.str "agent_message"),
              ("text", Json.str "Paris")])]),
           LineParse.bad "oops"]).structured
      = (match lastAgentMessage
            [LineParse.ok (Json.obj [("type", Json.str "item.completed"),
              ("item", Json.obj [("type", Json.str "agent_message"),
                ("text", Json.str "Paris")])]),
             LineParse.bad "oops"] with
         | some t => if t.truthy then some t else none
         | none => none) ∧
    lookupJson "event_count"
        (run_codex "/w" (ProcOutcome.mk 0 "x" "" 0 0)
          [LineParse.ok (Json.obj [("type", Json.str "item.completed"),
            ("item", Json.obj [("type", Json.str "agent_message"),
              ("text", Json.str "Paris")])]),
           LineParse.bad "oops"]).structured
      = some (Json.num (wellFormedCount
          [LineParse.ok (Json.obj [("type", Json.str "item.completed"),
            ("item", Json.obj [("type", Json.str "agent_message"),
              ("text", Json.str "Paris")])]),
           LineParse.bad "oops"])) ∧
    (run_codex "/w" (ProcOutcome.mk 0 "x" "" 0 0)
        [LineParse.ok (Json.obj [("type", Json.str "item.completed"),
          ("item", Json.obj [("type", Json.str "agent_message"),
            ("text", Json.str "Paris")])]),
         LineParse.bad "oops"]).structured
      = (run_codex "/w" (ProcOutcome.mk 0 "x" "" 0 0)
          (([LineParse.ok (Json.obj [("type", Json.str "item.completed"),
            ("item", Json.obj [("type", Json.str "agent_message"),
              ("text", Json.str "Paris")])]),
           LineParse.bad "oops"]).filter
            fun l => match l with | .ok _ => true | .bad _ => false)).structured) :=
  ⟨by decide,
   codex_jsonl_extraction "/w" (ProcOutcome.mk 0 "x" "" 0 0)
     [LineParse.ok (Json.obj [("type", Json.str "item.completed"),
       ("item", Json.obj [("type", Json.str "agent_message"),
         ("text", Json.str "Paris")])]),
      LineParse.bad "oops"] (by decide)⟩

theorem envLookup_of_not_mem (d : Env) (k : String)
    (h : ∀ p ∈ d, p.1 ≠ k) : envLookup k d = none := by
  induction d with
  | nil => rfl
  | cons p rest ih =>
    obtain ⟨k₁, v₁⟩ := p
    show (if k₁ = k then some v₁ else envLookup k rest) = none
    rw [if_neg (h (k₁, v₁) (by simp))]
    exact ih fun q hq => h q (by simp [hq])

theorem envLookup_map_setKey (d : Env) (k v k₁ : String) :
    envLookup k₁ (d.map fun p => if p.1 = k then (k, v) else p)
      = if k₁ = k then (if d.any (fun p => p.1 == k) then some v else none)
        else envLookup k₁ d := by
  induction d with
  | nil => simp [envLookup]
  | cons p rest ih =>
    obtain ⟨k₂, v₂⟩ := p
    simp only [List.map_cons, List.any_cons]
    by_cases h₂ : k₂ = k
    · rw [if_pos h₂]
      have hb : (k₂ == k) = true := by simp [h₂]
      by_cases h₁ : k₁ = k
      · simp [envLookup, hb, h₁, ih]
      · have h₄ : ¬(k₂ = k₁) := fun hc => h₁ (h₂.symm.trans hc).symm
        simp [envLookup, hb, h₁, h₄, ih, Ne.symm h₁]
    · rw [if_neg h₂]
      have hb : (k₂ == k) = false := by simp [h₂]
      by_cases h₁ : k₁ = k
      · have h₄ : ¬(k₂ = k₁) := fun hc => h₂ (hc.trans h₁)
        rw [h₁] at ih
        simp [envLookup, hb, h₁, h₂, h₄, ih]
        rw [hb, Bool.false_or]
      · simp [envLookup, hb, h₁, ih]

theorem envLookup_append (d₁ d₂ : Env) (k : String) :
    envLookup k (d₁ ++ d₂)
      = match envLookup k d₁ with
        | some v => some v
        | none => envLookup k d₂ := by
  induction d₁ with
  | nil => rfl
  | cons p rest ih =>
    obtain ⟨k₂, v₂⟩ := p
    by_cases h : k₂ = k <;> simp [envLookup, h, ih]

theorem envLookup_setKey (d : Env) (k v k₁ : String) :
    envLookup k₁ (setKey d k v) = if k₁ = k then some v else envLookup k₁ d := by
  unfold setKey
  by_cases hany : d.any (fun p => p.1 == k)
  · rw [if_pos hany, envLookup_map_setKey, if_pos hany]
  · rw [if_neg hany, envLookup_append]
    have hnone : envLookup k d = none := by
      refine envLookup_of_not_mem d k fun p hp => ?_
      intro hpk
      exact hany (List.any_eq_true.mpr ⟨p, hp, by simp [hpk]⟩)
    by_cases h₁ : k₁ = k
    · subst h₁
      rw [hnone]
      simp [envLookup]
    · cases he : envLookup k₁ d with
      | some w => simp [h₁]
      | none => simp [envLookup, h₁, Ne.symm h₁]

theorem envLookup_dictUpdate (base ov : Env) (k : String)
    (h : (ov.map Prod.fst).Nodup) :
    envLookup k (dictUpdate base ov)
      = match envLookup k ov with
        | some v => some v
        | none => envLookup k base := by
  induction ov generalizing base with
  | nil => rfl
  | cons p rest ih =>
    obtain ⟨k₁, v₁⟩ := p
    have hnd : (rest.map Prod.fst).Nodup := (List.nodup_cons.mp h).2
    have hk₁ : k₁ ∉ rest.map Prod.fst := (List.nodup_cons.mp h).1
    show envLookup k (dictUpdate (setKey base k₁ v₁) rest) = _
    rw [ih (setKey base k₁ v₁) hnd]
    show (match envLookup k rest with
        | some v => some v
        | none => envLookup k (setKey base k₁ v₁))
      = match (if k₁ = k then some v₁ else envLookup k rest) with
        | some v => some v
        | none => envLookup k base
    by_cases hk : k₁ = k
    · have hre : envLookup k rest = none := by
        refine envLookup_of_not_mem rest k fun p hp hpk => hk₁ ?_
        rw [hk, ← hpk]
        exact List.mem_map_of_mem Prod.fst hp
      rw [if_pos hk, hre, envLookup_setKey, if_pos hk.symm]
    · rw [if_neg hk, envLookup_setKey, if_neg fun hc => hk hc.symm]

/-- C9: the environment passed to the child is the pure merge of the
overrides on top of the base snapshot: on every key, the override value
wins when the key is overridden, and the base value is preserved when it
is not; with no overrides the child environment is exactly the copied
base. In this functional embedding the base list itself is never mutated
(os.environ.copy() before dict.update). The overrides are a Python dict,
so their keys are assumed distinct. -/
theorem merged_env_pure (base ov : Env) (k : String)
    (h : (ov.map Prod.fst).Nodup) :
    envLookup k (mergedEnv base (some ov))
      = (match envLookup k ov with
         | some v => some v
         | none => envLookup k base) ∧
    (envLookup k ov = none →
      envLookup k (mergedEnv base (some ov)) = envLookup k base) ∧
    (∀ v, envLookup k ov = some v →
      envLookup k (mergedEnv base (some ov)) = some v) ∧
    mergedEnv base none = base := by
  have hmain := envLookup_dictUpdate base ov k h
  refine ⟨hmain, ?_, ?_, rfl⟩
  · intro h₀
    exact hmain.trans (by rw [h₀])
  · intro v hv
    exact hmain.trans (by rw [hv])

theorem merged_env_pure_witness :
    ((([("B", "9"), ("C", "3")] : Env).map Prod.fst).Nodup) ∧
    (envLookup "B" (mergedEnv [("A", "1"), ("B", "2")] (some [("B", "9"), ("C", "3")]))
      = (match envLookup "B" ([("B", "9"), ("C", "3")] : Env) with
         | some v => some v
         | none => envLookup "B" ([("A", "1"), ("B", "2")] : Env)) ∧
    (envLookup "B" ([("B", "9"), ("C", "3")] : Env) = none →
      envLookup "B" (mergedEnv [("A", "1"), ("B", "2")] (some [("B", "9"), ("C", "3")]))
        = envLookup "B" ([("A", "1"), ("B", "2")] : Env)) ∧
    (∀ v, envLookup "B" ([("B", "9"), ("C", "3")] : Env) = some v →
      envLookup "B" (mergedEnv [("A", "1"), ("B", "2")] (some [("B", "9"), ("C", "3")]))
        = some v) ∧
    mergedEnv [("A", "1"), ("B", "2")] none = [("A", "1"), ("B", "2")]) :=
  ⟨by decide,
   merged_env_pure [("A", "1"), ("B", "2")] [("B", "9"), ("C", "3")] "B" (by decide)⟩

theorem ofStr_toStr (a : AgentName) : AgentName.ofStr a.toStr = some a := by
  cases a <;> rfl

theorem decOptNum_encOptNum (o : Option Int) : decOptNum (encOptNum o) = some o := by
  cases o <;> rfl

theorem decOptStr_encOptStr (o : Option String) : decOptStr (encOptStr o) = some o := by
  cases o <;> rfl

theorem decStrList_map (l : List String) : decStrList (l.map Json.str) = some l := by
  induction l with
  | nil => rfl
  | cons s rest ih => simp [decStrList, ih]

theorem usage_roundtrip (u : Usage) : Usage.fromJson u.toJson = some u := by
  obtain ⟨i, o, c⟩ := u
  simp +decide [Usage.toJson, Usage.fromJson, lookupJson, decOptNum_encOptNum]

theorem artifacts_roundtrip (a : Artifacts) : Artifacts.fromJson a.toJson = some a := by
  obtain ⟨fw, gd⟩ := a
  simp +decide [Artifacts.toJson, Artifacts.fromJson, lookupJson,
    decOptStr_encOptStr, decStrList_map]

theorem agentResult_fromJson_toJson (r : AgentResult) :
    AgentResult.fromJson r.toJson = some r := by
  obtain ⟨agent, mode, cwd, ok, ec, sa, ea, dm, so, se, st, ar, us⟩ := r
  simp +decide [AgentResult.toJson, AgentResult.fromJson, getStrField, getNumField,
    getBoolField, getObjField, lookupJson, ofStr_toStr, usage_roundtrip,
    artifacts_roundtrip]

/-- C8: serializing an Agent Result to JSON and parsing the JSON back is
the identity on the record, so the parsed value has the same agent
identity, exit code and success flag, and its timestamps agree with the
original, in particular at millisecond precision. -/
theorem agent_result_roundtrip (r : AgentResult) :
    ∃ r' : AgentResult, AgentResult.fromJson r.toJson = some r' ∧
      r'.agent = r.agent ∧ r'.exit_code = r.exit_code ∧ r'.ok = r.ok ∧
      millisOf r'.started_at = millisOf r.started_at ∧
      millisOf r'.ended_at = millisOf r.ended_at :=
  ⟨r, agentResult_fromJson_toJson r, rfl, rfl, rfl, rfl, rfl⟩

end AgentMesh
